import Mathlib

set_option maxRecDepth 8000

/-!
A shallow embedding, over rationals and Lean lists/strings, of the
hallucination-guard detection pipeline: claim extraction (`claims.py`),
fact verification (`verifier.py`), risk scoring (`scorer.py`),
explanation generation (`explainer.py`), highlighting (`highlight.py`)
and result assembly (`detector.py`).  Python floats are modelled as `ℚ`
and `round(x, n)` as floor-based rounding to `n` decimal places; all
quantities the theorems touch are far from rounding ties, where the two
models agree.
-/

/-- The `Claim` dataclass of `core/claims.py` (same shape in `app/claims.py`):
a sentence-level factual claim with a character span and optional
subject/predicate/object roles. -/
structure Claim where
  text : String
  source_span : ℕ × ℕ := (0, 0)
  subject : Option String := none
  predicate : Option String := none
  object_ : Option String := none
  metadata : List (String × String) := []
deriving DecidableEq

/-- The `VerificationResult` dataclass of `verifier.py`. -/
structure VerificationResult where
  claim : Claim
  is_supported : Bool := false
  confidence : ℚ := 0
  evidence : Option String := none
  source : Option String := none
  similarity_score : ℚ := 0
  metadata : List (String × String) := []
deriving DecidableEq

/-- The `RiskReport` dataclass of `scorer.py`. -/
structure RiskReport where
  hallucination_risk : ℚ
  confidence : ℚ
  total_claims : ℕ
  supported_claims : ℕ
  unsupported_claims : ℕ
  average_similarity : ℚ
  details : List VerificationResult
deriving DecidableEq

/-- Python `round(x, 4)` modelled on `ℚ` (round to nearest with half
rounded up; Python uses half-to-even, but the two differ only at exact
ties `x * 10000 + 1/2 ∈ ℤ`, which no value in this development hits). -/
def round4 (x : ℚ) : ℚ := (⌊x * 10000 + 1 / 2⌋ : ℚ) / 10000

/-- `HallucinationScorer.score` from `scorer.py`: aggregates verification
results into a `RiskReport` via the weighted combination
`0.50 * unsupported_fraction + 0.35 * (1 - average similarity) + 0.15 * severity`,
with the severity kink at an unsupported fraction of `0.5`, clamped to
`[0, 1]` and rounded to 4 decimals. -/
def HallucinationScorer.score (results : List VerificationResult) : RiskReport :=
  let total := results.length
  if total = 0 then
    { hallucination_risk := 0, confidence := 1, total_claims := 0,
      supported_claims := 0, unsupported_claims := 0,
      average_similarity := 0, details := [] }
  else
    let supported := results.countP (fun r => r.is_supported)
    let unsupported := total - supported
    let avg_sim := (results.map (fun r => r.similarity_score)).sum / total
    let uFrac : ℚ := (unsupported : ℚ) / total
    let inv_confidence := 1 - avg_sim
    let severity := if uFrac > 0.5 then min 1 (uFrac * 1.5) else uFrac * 0.5
    let risk := round4 (max 0 (min 1
      (0.50 * uFrac + 0.35 * inv_confidence + 0.15 * severity)))
    { hallucination_risk := risk, confidence := round4 (1 - risk),
      total_claims := total, supported_claims := supported,
      unsupported_claims := unsupported,
      average_similarity := round4 avg_sim, details := results }

/-- `ExplanationGenerator._severity_label` from `explainer.py`. -/
def severity_label (confidence : ℚ) (is_supported : Bool) : String :=
  if is_supported then "low"
  else if confidence < 0.2 then "high"
  else if confidence < 0.4 then "medium"
  else "low"

/-- Python `f"{x:.2f}"` on a non-negative rational. -/
def fmt2 (q : ℚ) : String :=
  let n := ⌊q * 100 + 1 / 2⌋
  toString (n / 100) ++ "." ++ (if n % 100 < 10 then "0" else "") ++ toString (n % 100)

/-- The `Explanation` dataclass of `explainer.py`. -/
structure Explanation where
  claim : String
  hallucinated : Bool
  confidence : ℚ
  explanation : String
  evidence : Option String := none
  source : Option String := none
  severity : String := "low"
deriving DecidableEq

/-- `ExplanationGenerator._build_explanation_text` from `explainer.py`;
`if vr.evidence:` is Python truthiness, so `None` and `""` both select
the "no supporting evidence" template. -/
def build_explanation_text (vr : VerificationResult) : String :=
  if vr.is_supported then
    "This claim appears to be factually supported (similarity: " ++
      fmt2 vr.confidence ++ ")."
  else
    match vr.evidence with
    | some ev =>
      if ev = "" then
        "This claim could not be verified against any trusted source (similarity: " ++
          fmt2 vr.confidence ++ "). No supporting evidence was found."
      else
        "This claim could not be verified. Available evidence suggests otherwise (similarity: " ++
          fmt2 vr.confidence ++ "). Source evidence: " ++ (ev.take 200)
    | none =>
      "This claim could not be verified against any trusted source (similarity: " ++
        fmt2 vr.confidence ++ "). No supporting evidence was found."

/-- The per-result body of `ExplanationGenerator.explain`. -/
def explainOne (vr : VerificationResult) : Explanation :=
  { claim := vr.claim.text,
    hallucinated := !vr.is_supported,
    confidence := round4 vr.confidence,
    explanation := build_explanation_text vr,
    evidence := vr.evidence,
    source := vr.source,
    severity := severity_label vr.confidence vr.is_supported }

/-- `ExplanationGenerator.explain` from `explainer.py`. -/
def ExplanationGenerator.explain (results : List VerificationResult) : List Explanation :=
  results.map explainOne

/-- A parsed token as consumed by `_extract_svo` in `claims.py`: surface
text, dependency label (`token.dep_`) and lemma (`token.lemma_`). -/
structure Token where
  text : String
  dep_ : String
  lemma_ : String
deriving DecidableEq

/-- Python `needle in hay` on strings: substring containment, as a direct
scan over the character lists. -/
def subInChars (needle : List Char) : List Char → Bool
  | [] => needle.isEmpty
  | c :: rest => needle.isPrefixOf (c :: rest) || subInChars needle rest

/-- Python `"subj" in token.dep_` (substring containment). -/
def isSubjDep (d : String) : Bool := subInChars "subj".toList d.toList

/-- Python `"obj" in token.dep_ or "attr" in token.dep_`. -/
def isObjDep (d : String) : Bool :=
  subInChars "obj".toList d.toList || subInChars "attr".toList d.toList

/-- `_extract_svo` from `claims.py`: a single pass over the sentence's
tokens; each of the three independent `if`s overwrites its slot whenever a
token matches, starting from `None`. -/
def extract_svo (sent : List Token) : Option String × Option String × Option String :=
  sent.foldl
    (fun acc t =>
      ((if isSubjDep t.dep_ then some t.text else acc.1),
       (if t.dep_ = "ROOT" then some t.lemma_ else acc.2.1),
       (if isObjDep t.dep_ then some t.text else acc.2.2)))
    (none, none, none)

/-- The subject/predicate/object rule as the specification words it: the
FIRST token whose dependency role contains `"subj"`, the (first) `ROOT`
token's lemma, and the FIRST token whose role contains `"obj"` or `"attr"`. -/
def extract_svo_first (sent : List Token) : Option String × Option String × Option String :=
  ((sent.find? (fun t => isSubjDep t.dep_)).map (fun t => t.text),
   (sent.find? (fun t => t.dep_ == "ROOT")).map (fun t => t.lemma_),
   (sent.find? (fun t => isObjDep t.dep_)).map (fun t => t.text))

/-- Last-match reading of the same rule: the LAST matching token fills each
slot; a slot with no matching token stays `none`. -/
def extract_svo_last (sent : List Token) : Option String × Option String × Option String :=
  ((sent.reverse.find? (fun t => isSubjDep t.dep_)).map (fun t => t.text),
   (sent.reverse.find? (fun t => t.dep_ == "ROOT")).map (fun t => t.lemma_),
   (sent.reverse.find? (fun t => isObjDep t.dep_)).map (fun t => t.text))

-- Two-subject sentence separating the first-match and last-match readings.
def tokAlice : Token := { text := "Alice", dep_ := "nsubj", lemma_ := "alice" }

def tokBob : Token := { text := "Bob", dep_ := "nsubjpass", lemma_ := "bob" }

/-- Python `str.split()` (no separator): maximal runs of non-whitespace
characters, written as a structural scan over the character list; `cur`
accumulates the current word in reverse. -/
def wordsAux (cur : List Char) : List Char → List String
  | [] => if cur.isEmpty then [] else [cur.reverse.asString]
  | ch :: rest =>
    if ch.isWhitespace then
      if cur.isEmpty then wordsAux [] rest
      else cur.reverse.asString :: wordsAux [] rest
    else wordsAux (ch :: cur) rest

/-- Python `claim.text.split()` from `_search_queries`. -/
def splitWs (s : String) : List String := wordsAux [] s.toList

/-- Python `w[0:1].isupper()`: the first character exists and is upper case. -/
def upperStart (w : String) : Bool :=
  match w.toList with
  | [] => false
  | ch :: _ => ch.isUpper

/-- The stop-set literal of `_search_queries`. -/
def stopWords : List String := ["the", "this", "that", "these", "those", "there"]

/-- Python `str.lower()`, character-wise. -/
def lowerStr (w : String) : String := (w.toList.map Char.toLower).asString

/-- The token filter in the `_search_queries` loop: starts with an upper-case
letter, longer than two characters, lower-cased form not in the stop-set. -/
def queryWord (w : String) : Bool :=
  upperStart w && decide (2 < w.length) && !(stopWords.contains (lowerStr w))

/-- The query list built by `_search_queries` before the fallback and the
deduplication: the subject first when truthy (Python `if claim.subject:`
is false for both `None` and `""`), then every qualifying whitespace
token of the claim text in order. -/
def rawQueries (c : Claim) : List String :=
  (match c.subject with
   | some s => if s = "" then [] else [s]
   | none => []) ++ (splitWs c.text).filter queryWord

/-- The `seen`-set deduplication loop of `_search_queries`: keep the first
occurrence of each query, remembering already-kept queries in `seen`. -/
def dedupSeen (seen : List String) : List String → List String
  | [] => []
  | q :: rest =>
    if q ∈ seen then dedupSeen seen rest
    else q :: dedupSeen (q :: seen) rest

/-- `FactVerifier._search_queries` from `verifier.py`: subject and
qualifying capitalised tokens, falling back to the first 80 characters of
the claim text when nothing was produced, then deduplicated preserving
first-occurrence order. -/
def search_queries (c : Claim) : List String :=
  dedupSeen []
    (if rawQueries c = [] then [(c.text.toList.take 80).asString]
     else rawQueries c)

/-- First-occurrence deduplication as the specification words it: a query
is kept exactly when it did not already appear among the kept queries. -/
def dedupFirstOccurrence (l : List String) : List String :=
  l.foldl (fun acc q => if q ∈ acc then acc else acc ++ [q]) []

/-- One iteration of the query loop in `FactVerifier.verify`: a `None`
lookup is skipped; otherwise the evidence is scored against the claim text
and the best-so-far triple (score, evidence truncated to 500 characters,
provenance label) is replaced only on a strict `>` comparison. -/
def queryStep (search : String → Option String) (score : String → String → ℚ)
    (ctext : String) (b : ℚ × Option String × Option String) (q : String) :
    ℚ × Option String × Option String :=
  match search q with
  | none => b
  | some ev =>
    let sim := score ctext ev
    if b.1 < sim then
      (sim, some (ev.toList.take 500).asString, some ("Wikipedia: " ++ q))
    else b

/-- The per-claim body of `FactVerifier.verify`: fold the query loop from
`(0.0, None, None)` and decide support at threshold `0.45`. -/
def verifyOne (search : String → Option String) (score : String → String → ℚ)
    (c : Claim) : VerificationResult :=
  let b := (search_queries c).foldl (queryStep search score c.text) (0, none, none)
  { claim := c,
    is_supported := decide ((0.45 : ℚ) ≤ b.1),
    confidence := b.1,
    evidence := b.2.1,
    source := b.2.2,
    similarity_score := b.1 }

/-- `FactVerifier.verify` from `verifier.py` over total collaborators:
one `VerificationResult` per claim, in order. -/
def FactVerifier.verify (search : String → Option String)
    (score : String → String → ℚ) (claims : List Claim) :
    List VerificationResult :=
  claims.map (verifyOne search score)

/-- The similarity a query would obtain: `None` when the evidence lookup
finds nothing, otherwise the score of the retrieved evidence against the
claim text. -/
def simOf (search : String → Option String) (score : String → String → ℚ)
    (ctext : String) (q : String) : Option ℚ :=
  (search q).map (score ctext)

/-- The per-claim body of `FactVerifier.verify` with fallible
collaborators.  The source wraps no call in `try`/`except`, so the
translation is the plain `Except` monad: the first raised error aborts
the remaining queries and escapes the loop. -/
def verifyOneE (search : String → Except String (Option String))
    (score : String → String → Except String ℚ) (c : Claim) :
    Except String VerificationResult := do
  let b ← (search_queries c).foldlM
    (fun (b : ℚ × Option String × Option String) q => do
      match ← search q with
      | none => pure b
      | some ev => do
        let sim ← score c.text ev
        if b.1 < sim then
          pure (sim, some (ev.toList.take 500).asString,
            some ("Wikipedia: " ++ q))
        else pure b)
    ((0 : ℚ), (none : Option String), (none : Option String))
  pure { claim := c,
         is_supported := decide ((0.45 : ℚ) ≤ b.1),
         confidence := b.1,
         evidence := b.2.1,
         source := b.2.2,
         similarity_score := b.1 }

/-- `FactVerifier.verify` with fallible collaborators: with no
`try`/`except` in the source, an error raised while verifying one claim
aborts the whole batch and no result list is produced. -/
def verifyE (search : String → Except String (Option String))
    (score : String → String → Except String ℚ) (claims : List Claim) :
    Except String (List VerificationResult) :=
  claims.mapM (verifyOneE search score)

-- Concrete collaborators and claims used to instantiate the verifier
-- theorems on closed inputs.
def parisClaim : Claim := { text := "Paris is the capital", subject := some "Paris" }

def albClaim : Claim := { text := "Alb Bob" }

def wSearch : String → Option String := fun _ => some "EV"

def wScore : String → String → ℚ := fun _ _ => 1 / 2

def zeroScore : String → String → ℚ := fun _ _ => 0

def failSearch : String → Except String (Option String) := fun q =>
  if q = "Alice" then .error "evidence lookup failed" else .ok (some "EV")

def okScore : String → String → Except String ℚ := fun _ _ => .ok 1

def aliceClaim : Claim := { text := "Alice" }

def bobClaim : Claim := { text := "Bob" }

-- Sample verification results over a contentless claim, used to
-- instantiate the scorer on concrete inputs.
def emptyClaim : Claim := { text := "" }

def vrSup (s : ℚ) : VerificationResult :=
  { claim := emptyClaim, is_supported := true, confidence := s, similarity_score := s }

def vrUnsup (s : ℚ) : VerificationResult :=
  { claim := emptyClaim, is_supported := false, confidence := s, similarity_score := s }

/-- `_flagged_spans` from `highlight.py`: the spans of the unsupported
results whose claim span differs from the `(0, 0)` sentinel, in result
order. -/
def flagged_spans (results : List VerificationResult) : List (ℕ × ℕ) :=
  (results.filter
    (fun r => !r.is_supported && !decide (r.claim.source_span = (0, 0)))).map
    (fun r => r.claim.source_span)

/-- The opening marker `FLAG_OPEN` of `highlight.py`. -/
def FLAG_OPEN : String := "⚠["

/-- The closing marker `FLAG_CLOSE` of `highlight.py`. -/
def FLAG_CLOSE : String := "]⚠"

/-- Insertion into a descending-by-start list, keeping the incoming
element ahead of equal keys already present: together with `sortByStartDesc`
this models Python's stable `sort(key=start, reverse=True)`. -/
def insertDescBy (x : ℕ × ℕ) : List (ℕ × ℕ) → List (ℕ × ℕ)
  | [] => [x]
  | y :: ys => if y.1 ≤ x.1 then x :: y :: ys else y :: insertDescBy x ys

/-- Stable sort by span start, descending. -/
def sortByStartDesc : List (ℕ × ℕ) → List (ℕ × ℕ)
  | [] => []
  | x :: xs => insertDescBy x (sortByStartDesc xs)

/-- One marker insertion of the `highlight_plain` loop, over the character
list of the working string: Python
`result[:start] + FLAG_OPEN + result[start:end] + FLAG_CLOSE + result[end:]`. -/
def insertMarkers (res : List Char) (span : ℕ × ℕ) : List Char :=
  res.take span.1 ++ FLAG_OPEN.toList ++
    ((res.drop span.1).take (span.2 - span.1)) ++ FLAG_CLOSE.toList ++
    res.drop span.2

/-- `highlight_plain` from `highlight.py`: the original text comes back
untouched when no span qualifies; otherwise the marker pair is inserted
around each qualifying span, spans processed in descending start order. -/
def highlight_plain (original_text : String) (report : RiskReport) : String :=
  let spans := flagged_spans report.details
  if spans = [] then original_text
  else ((sortByStartDesc spans).foldl insertMarkers original_text.toList).asString

/-- A JSON-like value, the codomain of `DetectionResult.to_dict`. -/
inductive JValue where
  | null : JValue
  | bool : Bool → JValue
  | num : ℚ → JValue
  | str : String → JValue
  | arr : List JValue → JValue
  | obj : List (String × JValue) → JValue

/-- Optional string serialization: Python `None` becomes JSON null. -/
def optStr : Option String → JValue
  | none => .null
  | some s => .str s

/-- The per-explanation dict literal inside `DetectionResult.to_dict`:
claim, hallucinated, confidence, explanation, severity and source — the
`Explanation.evidence` field is not serialized. -/
def explanationEntry (e : Explanation) : List (String × JValue) :=
  [("claim", .str e.claim),
   ("hallucinated", .bool e.hallucinated),
   ("confidence", .num e.confidence),
   ("explanation", .str e.explanation),
   ("severity", .str e.severity),
   ("source", optStr e.source)]

/-- The `DetectionResult` dataclass of `core/detector.py`. -/
structure DetectionResult where
  hallucinated : Bool
  hallucination_risk : ℚ
  confidence : ℚ
  total_claims : ℕ
  supported_claims : ℕ
  unsupported_claims : ℕ
  average_similarity : ℚ
  flagged_claims : List (List (String × JValue))
  explanations : List Explanation
  highlighted_text : String
  explanation : String

/-- `DetectionResult.to_dict` from `core/detector.py`. -/
def DetectionResult.to_dict (r : DetectionResult) : List (String × JValue) :=
  [("hallucinated", .bool r.hallucinated),
   ("hallucination_risk", .num r.hallucination_risk),
   ("confidence", .num r.confidence),
   ("total_claims", .num (r.total_claims : ℚ)),
   ("supported_claims", .num (r.supported_claims : ℚ)),
   ("unsupported_claims", .num (r.unsupported_claims : ℚ)),
   ("average_similarity", .num r.average_similarity),
   ("flagged_claims", .arr (r.flagged_claims.map JValue.obj)),
   ("explanations",
     .arr (r.explanations.map (fun e => JValue.obj (explanationEntry e)))),
   ("highlighted_text", .str r.highlighted_text),
   ("explanation", .str r.explanation)]

/-- The flagged-claims entry `HallucinationGuard.detect` builds for each
unsupported result; Python `vr.evidence or fallback` replaces both `None`
and `""` with the fallback text, likewise for `vr.source`. -/
def flaggedEntry (vr : VerificationResult) : List (String × JValue) :=
  [("claim", .str vr.claim.text),
   ("confidence", .num (round4 vr.confidence)),
   ("evidence", .str (match vr.evidence with
      | some e => if e = "" then "No supporting evidence found." else e
      | none => "No supporting evidence found.")),
   ("source", .str (match vr.source with
      | some s => if s = "" then "N/A" else s
      | none => "N/A"))]

/-- The flagged-claims list of `HallucinationGuard.detect` (step 6). -/
def buildFlagged (results : List VerificationResult) : List (List (String × JValue)) :=
  (results.filter (fun r => !r.is_supported)).map flaggedEntry

/-- The key list of a serialized dict. -/
def dictKeys (d : List (String × JValue)) : List String := d.map (fun kv => kv.1)

/-- A supported-only report used to instantiate the highlighter no-op. -/
def noopReport : RiskReport :=
  { hallucination_risk := 0, confidence := 1, total_claims := 1,
    supported_claims := 1, unsupported_claims := 0,
    average_similarity := 0.9, details := [vrSup 0.9] }

/-- C5: `HallucinationScorer.score []` returns a `RiskReport` with risk `0.0`,
confidence `1.0`, all counts `0` and average similarity `0.0`: zero extractable
claims is a successful zero-risk result, never an error. -/
theorem score_empty_zero_risk : HallucinationScorer.score [] =
    { hallucination_risk := 0, confidence := 1, total_claims := 0,
      supported_claims := 0, unsupported_claims := 0,
      average_similarity := 0, details := [] } := by rfl

/-- C3: on `[(supported, 0.90), (supported, 0.90), (unsupported, 0.10)]` the
scorer returns total `3`, supported `2`, unsupported `1`, average similarity
`0.6333`, hallucination risk `0.3200` and confidence `0.6800` (the risk comes
out of the `unsupported fraction ≤ 0.5` severity branch, clamped to `[0,1]`
and rounded to 4 decimals). -/
theorem score_numeric_example :
    HallucinationScorer.score [vrSup 0.9, vrSup 0.9, vrUnsup 0.1] =
    { hallucination_risk := 0.32, confidence := 0.68, total_claims := 3,
      supported_claims := 2, unsupported_claims := 1,
      average_similarity := 0.6333,
      details := [vrSup 0.9, vrSup 0.9, vrUnsup 0.1] } := by
  simp only [HallucinationScorer.score, round4, vrSup, vrUnsup, List.length,
    List.countP, List.countP.go, List.map, List.sum]
  norm_num [Int.floor_eq_iff]

/-- C7: the severity of the `Explanation` generated for a verification result
is `"high"` when the result is unsupported with confidence below `0.20`,
`"medium"` when unsupported with confidence in `[0.20, 0.40)`, `"low"` when
unsupported with confidence at least `0.40`, and `"low"` for every supported
result regardless of confidence. -/
theorem explain_severity_mapping (vr : VerificationResult) :
    (vr.is_supported = true → (explainOne vr).severity = "low")
    ∧ (vr.is_supported = false → vr.confidence < 0.2 →
        (explainOne vr).severity = "high")
    ∧ (vr.is_supported = false → 0.2 ≤ vr.confidence → vr.confidence < 0.4 →
        (explainOne vr).severity = "medium")
    ∧ (vr.is_supported = false → 0.4 ≤ vr.confidence →
        (explainOne vr).severity = "low") := by
  refine ⟨fun hs => ?_, fun hs h1 => ?_, fun hs h1 h2 => ?_, fun hs h1 => ?_⟩ <;>
    simp only [explainOne, severity_label, hs, if_true, if_false,
      Bool.false_eq_true]
  · rw [if_pos h1]
  · rw [if_neg (not_lt.mpr h1), if_pos h2]
  · rw [if_neg (not_lt.mpr (le_trans (by norm_num) h1)),
      if_neg (not_lt.mpr h1)]

/-- Witness for C7 at the spec's three sample points: confidence `0.15`
unsupported is `"high"`, `0.35` unsupported is `"medium"`, `0.45` supported is
`"low"`. -/
theorem explain_severity_mapping_witness :
    (explainOne (vrUnsup 0.15)).severity = "high"
    ∧ (explainOne (vrUnsup 0.35)).severity = "medium"
    ∧ (explainOne (vrSup 0.45)).severity = "low" :=
  ⟨(explain_severity_mapping (vrUnsup 0.15)).2.1 rfl (by norm_num [vrUnsup]),
   (explain_severity_mapping (vrUnsup 0.35)).2.2.1 rfl (by norm_num [vrUnsup])
     (by norm_num [vrUnsup]),
   (explain_severity_mapping (vrSup 0.45)).1 rfl⟩

/-- C2 counterexample: on a sentence with two subject-role tokens
(`"nsubj"` then `"nsubjpass"`), `_extract_svo` returns the LAST one
(`"Bob"`), not the first (`"Alice"`) as the claim states. -/
theorem extract_svo_first_counterexample :
    extract_svo [tokAlice, tokBob] = (some "Bob", none, none)
    ∧ extract_svo_first [tokAlice, tokBob] = (some "Alice", none, none)
    ∧ extract_svo [tokAlice, tokBob] ≠ extract_svo_first [tokAlice, tokBob] := by
  refine ⟨by decide, by decide, by decide⟩

/-- C2 amended: `_extract_svo` sets the subject to the LAST token whose
dependency role contains `"subj"`, the predicate to the lemma of the LAST
token whose role is `"ROOT"`, and the object to the LAST token whose role
contains `"obj"` or `"attr"`; any role with no matching token remains
`none`, which is not an error. -/
theorem extract_svo_last_match (sent : List Token) :
    extract_svo sent = extract_svo_last sent := by
  induction sent using List.reverseRecOn with
  | nil => rfl
  | append_singleton l t ih =>
    simp only [extract_svo, List.foldl_append, List.foldl_cons,
      List.foldl_nil] at *
    simp only [extract_svo_last, List.reverse_append, List.reverse_cons,
      List.reverse_nil, List.nil_append, List.singleton_append,
      List.find?_cons] at *
    rw [ih]
    cases hs : isSubjDep t.dep_ <;> cases hr : (t.dep_ == "ROOT") <;>
      cases ho : isObjDep t.dep_ <;>
        simp only [if_true, if_false, Option.map_some, Option.map_none,
          beq_iff_eq] at * <;>
      simp_all [extract_svo_last]

-- Properties of the `seen`-set deduplication loop.

theorem dedupSeen_nodup (l : List String) : ∀ seen : List String,
    (dedupSeen seen l).Nodup ∧ ∀ q ∈ dedupSeen seen l, q ∉ seen := by
  induction l with
  | nil => intro seen; simp [dedupSeen]
  | cons q rest ih =>
    intro seen
    by_cases h : q ∈ seen
    · simp only [dedupSeen, if_pos h]
      exact ⟨(ih seen).1, fun p hp => (ih seen).2 p hp⟩
    · simp only [dedupSeen, if_neg h]
      refine ⟨List.nodup_cons.mpr ⟨fun hq => ?_, (ih (q :: seen)).1⟩, ?_⟩
      · exact (ih (q :: seen)).2 q hq (List.mem_cons_self q seen)
      · intro p hp
        rcases List.mem_cons.mp hp with rfl | hp'
        · exact h
        · intro hps
          exact (ih (q :: seen)).2 p hp' (List.mem_cons_of_mem _ hps)

theorem dedupSeen_eq_foldl (l : List String) : ∀ seen acc : List String,
    (∀ q, q ∈ seen ↔ q ∈ acc) →
    acc ++ dedupSeen seen l =
      l.foldl (fun a q => if q ∈ a then a else a ++ [q]) acc := by
  induction l with
  | nil => intro seen acc _; simp [dedupSeen]
  | cons q rest ih =>
    intro seen acc h
    simp only [dedupSeen, List.foldl_cons]
    by_cases hq : q ∈ seen
    · rw [if_pos hq, if_pos ((h q).mp hq)]
      exact ih seen acc h
    · rw [if_neg hq, if_neg (fun hin => hq ((h q).mpr hin))]
      have hsplit : acc ++ q :: dedupSeen (q :: seen) rest =
          (acc ++ [q]) ++ dedupSeen (q :: seen) rest := by simp
      rw [hsplit]
      refine ih (q :: seen) (acc ++ [q]) (fun p => ?_)
      simp only [List.mem_cons, List.mem_append, List.mem_singleton, h p]
      tauto

theorem dedupSeen_eq_spec (l : List String) :
    dedupSeen [] l = dedupFirstOccurrence l := by
  have h := dedupSeen_eq_foldl l [] [] (by simp)
  simpa [dedupFirstOccurrence] using h

theorem dedupSeen_ne_nil (q : String) (rest : List String) :
    dedupSeen [] (q :: rest) ≠ [] := by
  simp [dedupSeen]

/-- C6: for a claim with non-empty text, `_search_queries` produces a
non-empty list with no repeated query, equal to the first-occurrence
deduplication of: the (truthy) subject, then the qualifying capitalised
tokens of the text in order, with the first 80 characters of the text as
sole fallback query when nothing was produced. -/
theorem search_queries_spec (c : Claim) (h : c.text ≠ "") :
    search_queries c ≠ [] ∧ (search_queries c).Nodup ∧
    search_queries c = dedupFirstOccurrence
      (if rawQueries c = [] then [(c.text.toList.take 80).asString]
       else rawQueries c) := by
  refine ⟨?_, (dedupSeen_nodup _ []).1, dedupSeen_eq_spec _⟩
  have hne : (if rawQueries c = [] then [(c.text.toList.take 80).asString]
      else rawQueries c) ≠ [] := by
    by_cases hraw : rawQueries c = []
    · simp [hraw]
    · simp [hraw]
  obtain ⟨q, rest, hqrest⟩ := List.exists_cons_of_ne_nil hne
  rw [search_queries, hqrest]
  exact dedupSeen_ne_nil q rest

/-- Witness for C6 on a concrete claim whose subject duplicates a
capitalised token: the queries collapse to a single entry. -/
theorem search_queries_spec_witness :
    parisClaim.text ≠ "" ∧ search_queries parisClaim = ["Paris"] ∧
    search_queries parisClaim ≠ [] ∧ (search_queries parisClaim).Nodup ∧
    search_queries parisClaim = dedupFirstOccurrence
      (if rawQueries parisClaim = []
       then [(parisClaim.text.toList.take 80).asString]
       else rawQueries parisClaim) :=
  ⟨by decide, by decide,
   (search_queries_spec parisClaim (by decide)).1,
   (search_queries_spec parisClaim (by decide)).2.1,
   (search_queries_spec parisClaim (by decide)).2.2⟩

-- Properties of the best-so-far reduction in the verification loop.

theorem foldl_queryStep_no_update (search : String → Option String)
    (score : String → String → ℚ) (ctext : String) :
    ∀ (qs : List String) (b : ℚ × Option String × Option String),
      (∀ q ∈ qs, ∀ s, simOf search score ctext q = some s → s ≤ b.1) →
      qs.foldl (queryStep search score ctext) b = b := by
  intro qs
  induction qs with
  | nil => intro b _; rfl
  | cons q rest ih =>
    intro b h
    rw [List.foldl_cons]
    have hstep : queryStep search score ctext b q = b := by
      simp only [queryStep]
      cases hs : search q with
      | none => rfl
      | some ev =>
        have hle : score ctext ev ≤ b.1 :=
          h q (List.mem_cons_self q rest) _ (by simp [simOf, hs])
        simp only [if_neg (not_lt.mpr hle)]
    rw [hstep]
    exact ih b (fun p hp s hsim => h p (List.mem_cons_of_mem q hp) s hsim)

theorem foldl_queryStep_first_max (search : String → Option String)
    (score : String → String → ℚ) (ctext : String) (M : ℚ) :
    ∀ (qs : List String) (b : ℚ × Option String × Option String), b.1 < M →
      (∀ q ∈ qs, ∀ s, simOf search score ctext q = some s → s ≤ M) →
      ∀ q₀, qs.find? (fun q => decide (simOf search score ctext q = some M)) = some q₀ →
      ∃ ev, search q₀ = some ev ∧
        qs.foldl (queryStep search score ctext) b =
          (M, some (ev.toList.take 500).asString, some ("Wikipedia: " ++ q₀)) := by
  intro qs
  induction qs with
  | nil => intro b _ _ q₀ hfind; simp [List.find?] at hfind
  | cons q rest ih =>
    intro b hb h q₀ hfind
    cases hp : decide (simOf search score ctext q = some M) with
    | true =>
      have hq : simOf search score ctext q = some M := of_decide_eq_true hp
      simp only [List.find?, hp] at hfind
      injection hfind with hq₀
      subst hq₀
      cases hs : search q with
      | none => rw [simOf, hs] at hq; simp at hq
      | some ev =>
        have hscore : score ctext ev = M := by
          rw [simOf, hs] at hq
          simpa using hq
        rw [List.foldl_cons]
        have hstep : queryStep search score ctext b q =
            (M, some (ev.toList.take 500).asString,
              some ("Wikipedia: " ++ q)) := by
          simp only [queryStep, hs, hscore, if_pos hb]
        rw [hstep]
        refine ⟨ev, rfl, ?_⟩
        exact foldl_queryStep_no_update search score ctext rest _
          (fun p hp' s hsim => h p (List.mem_cons_of_mem _ hp') s hsim)
    | false =>
      have hq : simOf search score ctext q ≠ some M := of_decide_eq_false hp
      simp only [List.find?, hp] at hfind
      rw [List.foldl_cons]
      cases hs : search q with
      | none =>
        have hstep : queryStep search score ctext b q = b := by
          simp [queryStep, hs]
        rw [hstep]
        exact ih b hb (fun p hp' s hsim => h p (List.mem_cons_of_mem _ hp') s hsim)
          q₀ hfind
      | some ev =>
        have hsM : score ctext ev ≤ M :=
          h q (List.mem_cons_self q rest) _ (by simp [simOf, hs])
        have hsne : score ctext ev ≠ M := fun hc => hq (by simp [simOf, hs, hc])
        have hslt : score ctext ev < M := lt_of_le_of_ne hsM hsne
        by_cases hlt : b.1 < score ctext ev
        · have hstep : queryStep search score ctext b q =
              (score ctext ev, some (ev.toList.take 500).asString,
                some ("Wikipedia: " ++ q)) := by
            simp only [queryStep, hs, if_pos hlt]
          rw [hstep]
          exact ih _ hslt
            (fun p hp' s hsim => h p (List.mem_cons_of_mem _ hp') s hsim) q₀ hfind
        · have hstep : queryStep search score ctext b q = b := by
            simp only [queryStep, hs, if_neg hlt]
          rw [hstep]
          exact ih b hb
            (fun p hp' s hsim => h p (List.mem_cons_of_mem _ hp') s hsim) q₀ hfind

/-- C4: when the maximal similarity `M` over a claim's queries is positive
and attained more than once, the verifier's best-so-far update (strict `>`)
keeps the evidence and the provenance label of the FIRST query in
generation order attaining `M` (`find?` returns the first match). -/
theorem verify_first_max_wins (search : String → Option String)
    (score : String → String → ℚ) (c : Claim) (M : ℚ) (q₀ : String)
    (hM : 0 < M)
    (hmax : ∀ q ∈ search_queries c, ∀ s,
      simOf search score c.text q = some s → s ≤ M)
    (hfind : (search_queries c).find?
      (fun q => decide (simOf search score c.text q = some M)) = some q₀) :
    ∃ ev, search q₀ = some ev ∧
      (verifyOne search score c).similarity_score = M ∧
      (verifyOne search score c).evidence = some (ev.toList.take 500).asString ∧
      (verifyOne search score c).source = some ("Wikipedia: " ++ q₀) := by
  obtain ⟨ev, hs, hfold⟩ := foldl_queryStep_first_max search score c.text M
    (search_queries c) (0, none, none) (by simpa using hM) hmax q₀ hfind
  exact ⟨ev, hs, by simp [verifyOne, hfold], by simp [verifyOne, hfold],
    by simp [verifyOne, hfold]⟩

/-- Witness for C4: both queries of `albClaim` score exactly `1/2`, and the
result carries the provenance of the first one. -/
theorem verify_first_max_wins_witness :
    ∃ ev, wSearch "Alb" = some ev ∧
      (verifyOne wSearch wScore albClaim).similarity_score = 1 / 2 ∧
      (verifyOne wSearch wScore albClaim).evidence =
        some (ev.toList.take 500).asString ∧
      (verifyOne wSearch wScore albClaim).source =
        some ("Wikipedia: " ++ "Alb") :=
  verify_first_max_wins wSearch wScore albClaim (1 / 2) "Alb" (by norm_num)
    (by
      intro q _ s hsim
      simp only [simOf, wSearch, wScore, Option.map_some] at hsim
      injection hsim with hs
      rw [← hs]
      exact le_refl _)
    (by
      have hq : search_queries albClaim = ["Alb", "Bob"] := by decide
      rw [hq]
      exact List.find?_cons_of_pos _ (decide_eq_true rfl))

/-- C9: when at least one query of a claim returns evidence but every
similarity obtained is exactly `0.0`, the strict `>` update never fires
against the initial best score `0.0`, so the result records no evidence
and no source — indistinguishable from finding no evidence at all — with
similarity `0.0` and unsupported. -/
theorem verify_all_zero_scores_unrecorded (search : String → Option String)
    (score : String → String → ℚ) (c : Claim)
    (hev : ∃ q ∈ search_queries c, search q ≠ none)
    (hzero : ∀ q ∈ search_queries c, ∀ s,
      simOf search score c.text q = some s → s = 0) :
    (verifyOne search score c).evidence = none ∧
    (verifyOne search score c).source = none ∧
    (verifyOne search score c).similarity_score = 0 ∧
    (verifyOne search score c).is_supported = false := by
  have hfold := foldl_queryStep_no_update search score c.text (search_queries c)
    (0, none, none) (fun q hq s hs => le_of_eq (hzero q hq s hs))
  refine ⟨by simp [verifyOne, hfold], by simp [verifyOne, hfold],
    by simp [verifyOne, hfold], ?_⟩
  simp only [verifyOne, hfold]
  exact decide_eq_false (by norm_num)

/-- Witness for C9: every lookup finds evidence `"EV"` but the similarity
model scores everything `0`; the result is empty-handed. -/
theorem verify_all_zero_scores_unrecorded_witness :
    (verifyOne wSearch zeroScore albClaim).evidence = none ∧
    (verifyOne wSearch zeroScore albClaim).source = none ∧
    (verifyOne wSearch zeroScore albClaim).similarity_score = 0 ∧
    (verifyOne wSearch zeroScore albClaim).is_supported = false :=
  verify_all_zero_scores_unrecorded wSearch zeroScore albClaim
    ⟨"Alb", by decide, by simp [wSearch]⟩
    (by
      intro q _ s hsim
      simp only [simOf, wSearch, zeroScore, Option.map_some] at hsim
      injection hsim with hs
      rw [← hs]
      rfl)

/-- C1: the query loop of `FactVerifier.verify` wraps no collaborator call
in `try`/`except`, so an error raised by the evidence lookup while
processing the first claim escapes `verify` at once: the batch is aborted,
no fallback result is produced for the affected claim, and the remaining
claim is never attempted. -/
theorem verify_error_aborts_batch :
    verifyE failSearch okScore [aliceClaim, bobClaim] =
      .error "evidence lookup failed" := by rfl

/-- C8: `highlight_plain` returns the original text unchanged (content
equality) whenever every result in the report is supported or carries the
`(0, 0)` sentinel span; and a span is ever highlighted only when it comes
from an unsupported result whose span differs from `(0, 0)`. -/
theorem highlight_plain_noop (t : String) (report : RiskReport) :
    ((∀ r ∈ report.details,
        r.is_supported = true ∨ r.claim.source_span = (0, 0)) →
      highlight_plain t report = t) ∧
    (∀ s ∈ flagged_spans report.details, ∃ r ∈ report.details,
      r.is_supported = false ∧ r.claim.source_span ≠ (0, 0) ∧
      s = r.claim.source_span) := by
  constructor
  · intro h
    have hnil : flagged_spans report.details = [] := by
      simp only [flagged_spans, List.map_eq_nil_iff, List.filter_eq_nil_iff]
      intro r hr
      rcases h r hr with hs | hsp
      · simp [hs]
      · simp [hsp]
    simp [highlight_plain, hnil]
  · intro s hs
    simp only [flagged_spans, List.mem_map] at hs
    obtain ⟨r, hrmem, hreq⟩ := hs
    rw [List.mem_filter] at hrmem
    obtain ⟨hrd, hrp⟩ := hrmem
    simp only [Bool.and_eq_true, Bool.not_eq_true', decide_eq_false_iff_not] at hrp
    exact ⟨r, hrd, hrp.1, hrp.2, hreq.symm⟩

/-- Witness for C8: a report whose single result is supported leaves the
text `"hello"` unchanged. -/
theorem highlight_plain_noop_witness :
    (∀ r ∈ noopReport.details,
      r.is_supported = true ∨ r.claim.source_span = (0, 0)) ∧
    highlight_plain "hello" noopReport = "hello" := by
  have hall : ∀ r ∈ noopReport.details,
      r.is_supported = true ∨ r.claim.source_span = (0, 0) := by
    intro r hr
    simp only [noopReport, List.mem_singleton] at hr
    subst hr
    left
    rfl
  exact ⟨hall, (highlight_plain_noop "hello" noopReport).1 hall⟩

/-- C10: `DetectionResult.to_dict` serializes each `Explanation` with
exactly the keys `claim`, `hallucinated`, `confidence`, `explanation`,
`severity` and `source` — the `evidence` field is always omitted from the
serialized explanations — while every flagged-claims entry the detector
builds does retain an `evidence` key. -/
theorem to_dict_explanation_keys (r : DetectionResult) (vr : VerificationResult) :
    (r.to_dict.lookup "explanations" =
      some (.arr (r.explanations.map (fun e => JValue.obj (explanationEntry e))))) ∧
    (∀ e : Explanation, dictKeys (explanationEntry e) =
      ["claim", "hallucinated", "confidence", "explanation", "severity", "source"]) ∧
    (∀ e : Explanation, "evidence" ∉ dictKeys (explanationEntry e)) ∧
    "evidence" ∈ dictKeys (flaggedEntry vr) := by
  refine ⟨rfl, fun e => rfl, fun e => ?_, ?_⟩
  · simp [explanationEntry, dictKeys]
  · simp [flaggedEntry, dictKeys]
